import Mathlib

/-!
Shallow embedding of the physics3d-engine core: `src/math/Vector3D.ts`,
`src/math/Quaternion.ts`, and the `RigidBody` / collider / `PhysicsWorld`
classes of `src/physics/Collision.ts`.

JavaScript numbers are modelled by exact rationals.  `Math.sqrt` is modelled
by `sqrtQ`, which is exact whenever the real square root of the rational is
itself rational and an integer-square-root approximation otherwise
(mirroring the inexactness of floating point).  `Math.cos` / `Math.sin`,
used only by `QuaternionQ.fromAxisAngle`, are modelled by rational Taylor
polynomials.  JavaScript object references are modelled by a heap: rigid
bodies live in a store (`List RigidBody`) and every reference to a body is
the body's index into that store, so that aliased mutation is reproduced
faithfully.  The single throwing operation (`Vector3D.divide` by zero)
returns `Except`.
-/

/-- Fuel-based integer square root (largest `k` with `k * k ≤ n`), written
with structural recursion so that it reduces inside the kernel. -/
def isqrtAux (n : Nat) : Nat → Nat → Nat
  | 0, acc => acc
  | fuel + 1, acc => if (acc + 1) * (acc + 1) ≤ n then isqrtAux n fuel (acc + 1) else acc

/-- Integer square root: `isqrt n` is the largest `k` with `k * k ≤ n`. -/
def isqrt (n : Nat) : Nat := isqrtAux n n 0

/-- Model of `Math.sqrt` on rationals: integer square root of the numerator
over integer square root of the denominator.  Exact on rational perfect
squares (the only points where any exact model can agree with the real
square root), zero on negative inputs. -/
def sqrtQ (q : ℚ) : ℚ := (isqrt q.num.toNat : ℚ) / (isqrt q.den : ℚ)

/-- Rational Taylor model of `Math.cos` (used only by
`QuaternionQ.fromAxisAngle`; no claim depends on its values). -/
def cosQ (x : ℚ) : ℚ := 1 - x ^ 2 / 2 + x ^ 4 / 24 - x ^ 6 / 720

/-- Rational Taylor model of `Math.sin` (used only by
`QuaternionQ.fromAxisAngle`; no claim depends on its values). -/
def sinQ (x : ℚ) : ℚ := x - x ^ 3 / 6 + x ^ 5 / 120 - x ^ 7 / 5040

/-- `Vector3D` from `src/math/Vector3D.ts`. -/
structure Vector3D where
  x : ℚ
  y : ℚ
  z : ℚ
  deriving DecidableEq, Repr

/-- `Vector3D.zero()`. -/
def Vector3D.zero : Vector3D := ⟨0, 0, 0⟩

/-- `Vector3D.add`. -/
def Vector3D.add (v w : Vector3D) : Vector3D := ⟨v.x + w.x, v.y + w.y, v.z + w.z⟩

/-- `Vector3D.subtract`. -/
def Vector3D.subtract (v w : Vector3D) : Vector3D := ⟨v.x - w.x, v.y - w.y, v.z - w.z⟩

/-- `Vector3D.multiply` (by a scalar). -/
def Vector3D.multiply (v : Vector3D) (s : ℚ) : Vector3D := ⟨v.x * s, v.y * s, v.z * s⟩

/-- `Vector3D.divide`: throws `"Cannot divide by zero"` on a zero scalar. -/
def Vector3D.divide (v : Vector3D) (s : ℚ) : Except String Vector3D :=
  if s = 0 then Except.error "Cannot divide by zero"
  else Except.ok ⟨v.x / s, v.y / s, v.z / s⟩

/-- `Vector3D.dot`. -/
def Vector3D.dot (v w : Vector3D) : ℚ := v.x * w.x + v.y * w.y + v.z * w.z

/-- `Vector3D.cross`. -/
def Vector3D.cross (v w : Vector3D) : Vector3D :=
  ⟨v.y * w.z - v.z * w.y, v.z * w.x - v.x * w.z, v.x * w.y - v.y * w.x⟩

/-- `Vector3D.magnitude`: `Math.sqrt(x*x + y*y + z*z)`. -/
def Vector3D.magnitude (v : Vector3D) : ℚ := sqrtQ (v.x * v.x + v.y * v.y + v.z * v.z)

/-- `Vector3D.magnitudeSquared`. -/
def Vector3D.magnitudeSquared (v : Vector3D) : ℚ := v.x * v.x + v.y * v.y + v.z * v.z

/-- `Vector3D.normalize`: returns the zero vector when the magnitude is zero,
otherwise `this.divide(mag)` (whose error branch is unreachable because the
divisor was just checked to be non-zero). -/
def Vector3D.normalize (v : Vector3D) : Vector3D :=
  let mag := v.magnitude
  if mag = 0 then ⟨0, 0, 0⟩
  else
    match v.divide mag with
    | Except.ok r => r
    | Except.error _ => ⟨0, 0, 0⟩

/-- `Vector3D.distanceTo`. -/
def Vector3D.distanceTo (v w : Vector3D) : ℚ := (v.subtract w).magnitude

/-- `QuaternionQ` from `src/math/Quaternion.ts`. -/
structure QuaternionQ where
  w : ℚ
  x : ℚ
  y : ℚ
  z : ℚ
  deriving DecidableEq, Repr

/-- `QuaternionQ.identity()`. -/
def QuaternionQ.identity : QuaternionQ := ⟨1, 0, 0, 0⟩

/-- `QuaternionQ.multiply`. -/
def QuaternionQ.multiply (a b : QuaternionQ) : QuaternionQ :=
  ⟨a.w * b.w - a.x * b.x - a.y * b.y - a.z * b.z,
   a.w * b.x + a.x * b.w + a.y * b.z - a.z * b.y,
   a.w * b.y - a.x * b.z + a.y * b.w + a.z * b.x,
   a.w * b.z + a.x * b.y - a.y * b.x + a.z * b.w⟩

/-- `QuaternionQ.magnitude`. -/
def QuaternionQ.magnitude (q : QuaternionQ) : ℚ :=
  sqrtQ (q.w * q.w + q.x * q.x + q.y * q.y + q.z * q.z)

/-- `QuaternionQ.normalize`: returns the identity quaternion when the
magnitude is zero, otherwise divides every component by the magnitude. -/
def QuaternionQ.normalize (q : QuaternionQ) : QuaternionQ :=
  let mag := q.magnitude
  if mag = 0 then ⟨1, 0, 0, 0⟩
  else ⟨q.w / mag, q.x / mag, q.y / mag, q.z / mag⟩

/-- `QuaternionQ.fromAxisAngle`. -/
def QuaternionQ.fromAxisAngle (axis : Vector3D) (angle : ℚ) : QuaternionQ :=
  let halfAngle := angle * (1 / 2)
  let s := sinQ halfAngle
  let normalized := axis.normalize
  ⟨cosQ halfAngle, normalized.x * s, normalized.y * s, normalized.z * s⟩

theorem sqrtQ_zero : sqrtQ 0 = 0 := by simp [sqrtQ, isqrt, isqrtAux]

theorem vector_zero_magnitude : Vector3D.zero.magnitude = 0 := by
  simp [Vector3D.magnitude, Vector3D.zero, sqrtQ_zero]

/-- `RigidBody` from `src/physics/RigidBody.ts`.  The private `forces` and
`torques` arrays are the per-step accumulation buffers. -/
structure RigidBody where
  position : Vector3D
  velocity : Vector3D
  acceleration : Vector3D
  rotation : QuaternionQ
  angularVelocity : Vector3D
  angularAcceleration : Vector3D
  mass : ℚ
  inverseMass : ℚ
  restitution : ℚ
  friction : ℚ
  drag : ℚ
  angularDrag : ℚ
  isStatic : Bool
  isKinematic : Bool
  useGravity : Bool
  forces : List Vector3D
  torques : List Vector3D
  deriving DecidableEq, Repr

/-- The `RigidBody` constructor (`constructor(mass = 1, position = zero)`):
`inverseMass = mass > 0 ? 1 / mass : 0`, defaults restitution 0.6,
friction 0.5, drag 0.01, angularDrag 0.05, all flags as in the source. -/
def RigidBody.create (mass : ℚ) (position : Vector3D) : RigidBody where
  position := position
  velocity := Vector3D.zero
  acceleration := Vector3D.zero
  rotation := QuaternionQ.identity
  angularVelocity := Vector3D.zero
  angularAcceleration := Vector3D.zero
  mass := mass
  inverseMass := if 0 < mass then 1 / mass else 0
  restitution := 3 / 5
  friction := 1 / 2
  drag := 1 / 100
  angularDrag := 1 / 20
  isStatic := false
  isKinematic := false
  useGravity := true
  forces := []
  torques := []

instance : Inhabited RigidBody := ⟨RigidBody.create 1 Vector3D.zero⟩

/-- `RigidBody.addForce`: no-op when static, otherwise appends to the
pending forces. -/
def RigidBody.addForce (b : RigidBody) (force : Vector3D) : RigidBody :=
  if b.isStatic then b else { b with forces := b.forces ++ [force] }

/-- `RigidBody.addTorque`: no-op when static, otherwise appends to the
pending torques. -/
def RigidBody.addTorque (b : RigidBody) (torque : Vector3D) : RigidBody :=
  if b.isStatic then b else { b with torques := b.torques ++ [torque] }

/-- `RigidBody.addForceAtPoint`: adds the force and the torque
`(point - position) × force`. -/
def RigidBody.addForceAtPoint (b : RigidBody) (force point : Vector3D) : RigidBody :=
  if b.isStatic then b
  else
    let b := b.addForce force
    let r := point.subtract b.position
    b.addTorque (r.cross force)

/-- `RigidBody.setMass`: recomputes `inverseMass`; sets `isStatic` only when
the new mass is exactly zero. -/
def RigidBody.setMass (b : RigidBody) (mass : ℚ) : RigidBody :=
  let b := { b with mass := mass, inverseMass := if 0 < mass then 1 / mass else 0 }
  if mass = 0 then { b with isStatic := true } else b

/-- `RigidBody.makeStatic`: zeroes `inverseMass` and both velocities. -/
def RigidBody.makeStatic (b : RigidBody) : RigidBody :=
  { b with isStatic := true, inverseMass := 0,
           velocity := Vector3D.zero, angularVelocity := Vector3D.zero }

/-- `RigidBody.makeKinematic`: zeroes `inverseMass`, sets `isKinematic`,
leaves `isStatic` (and the velocities) untouched. -/
def RigidBody.makeKinematic (b : RigidBody) : RigidBody :=
  { b with isKinematic := true, inverseMass := 0 }

/-- `RigidBody.makeDynamic(mass = 1)`: clears both flags, then `setMass`. -/
def RigidBody.makeDynamic (b : RigidBody) (mass : ℚ) : RigidBody :=
  ({ b with isStatic := false, isKinematic := false }).setMass mass

/-- `RigidBody.integrate`: no-op when static; sums pending forces and
torques; when not kinematic adds quadratic drag and recomputes the
accelerations from `inverseMass`; semi-implicit Euler (velocity first, then
position from the new velocity); orientation update skipped at exactly zero
angular speed; unconditionally clears the pending forces and torques. -/
def RigidBody.integrate (b : RigidBody) (deltaTime : ℚ) : RigidBody :=
  if b.isStatic then b
  else
    let netForce := b.forces.foldl (fun acc f => acc.add f) Vector3D.zero
    let netTorque := b.torques.foldl (fun acc t => acc.add t) Vector3D.zero
    let (acceleration, angularAcceleration) :=
      if !b.isKinematic then
        let dragForce := b.velocity.multiply (-b.drag * b.velocity.magnitude)
        let netForce := netForce.add dragForce
        let angularDragTorque :=
          b.angularVelocity.multiply (-b.angularDrag * b.angularVelocity.magnitude)
        let netTorque := netTorque.add angularDragTorque
        (netForce.multiply b.inverseMass, netTorque.multiply b.inverseMass)
      else (b.acceleration, b.angularAcceleration)
    let velocity := b.velocity.add (acceleration.multiply deltaTime)
    let angularVelocity := b.angularVelocity.add (angularAcceleration.multiply deltaTime)
    let position := b.position.add (velocity.multiply deltaTime)
    let rotation :=
      if 0 < angularVelocity.magnitude then
        let angle := angularVelocity.magnitude * deltaTime
        let axis := angularVelocity.normalize
        (b.rotation.multiply (QuaternionQ.fromAxisAngle axis angle)).normalize
      else b.rotation
    { b with position := position, velocity := velocity, acceleration := acceleration,
             angularVelocity := angularVelocity,
             angularAcceleration := angularAcceleration,
             rotation := rotation, forces := [], torques := [] }

/-- The mutating mass/mode operations of `RigidBody` named by the spec's
invariant: `setMass`, `makeStatic`, `makeKinematic`, `makeDynamic`. -/
inductive BodyOp where
  | makeStaticOp : BodyOp
  | makeKinematicOp : BodyOp
  | makeDynamicOp (mass : ℚ) : BodyOp
  | setMassOp (mass : ℚ) : BodyOp
  deriving DecidableEq, Repr

/-- Apply one `BodyOp` to a body. -/
def applyBodyOp (b : RigidBody) : BodyOp → RigidBody
  | BodyOp.makeStaticOp => b.makeStatic
  | BodyOp.makeKinematicOp => b.makeKinematic
  | BodyOp.makeDynamicOp m => b.makeDynamic m
  | BodyOp.setMassOp m => b.setMass m

/-- Apply a sequence of `BodyOp`s left to right. -/
def applyBodyOps (b : RigidBody) (ops : List BodyOp) : RigidBody :=
  ops.foldl applyBodyOp b

/-- The spec's claimed invariant: `inverseMass == 0 ⟺ isStatic`. -/
def massStaticInv (b : RigidBody) : Prop := b.inverseMass = 0 ↔ b.isStatic = true

instance (b : RigidBody) : Decidable (massStaticInv b) := by
  unfold massStaticInv; infer_instance

/-- The operations that do preserve the invariant: `makeStatic`,
`makeDynamic` with positive mass, and `setMass(0)`. -/
def goodBodyOp : BodyOp → Prop
  | BodyOp.makeStaticOp => True
  | BodyOp.makeKinematicOp => False
  | BodyOp.makeDynamicOp m => 0 < m
  | BodyOp.setMassOp m => m = 0

theorem massStaticInv_create_pos {m : ℚ} (hm : 0 < m) (p : Vector3D) :
    massStaticInv (RigidBody.create m p) := by
  simp [massStaticInv, RigidBody.create, hm, one_div, inv_eq_zero]
  exact ne_of_gt hm

theorem massStaticInv_applyBodyOp {b : RigidBody} (op : BodyOp)
    (hop : goodBodyOp op) (_ : massStaticInv b) : massStaticInv (applyBodyOp b op) := by
  cases op with
  | makeStaticOp => simp [applyBodyOp, RigidBody.makeStatic, massStaticInv]
  | makeKinematicOp => exact absurd hop (by simp [goodBodyOp])
  | makeDynamicOp m =>
    have hm : 0 < m := hop
    have hm0 : m ≠ 0 := ne_of_gt hm
    simp [applyBodyOp, RigidBody.makeDynamic, RigidBody.setMass, massStaticInv, hm, hm0,
      one_div, inv_eq_zero]
  | setMassOp m =>
    have hm : m = 0 := hop
    subst hm
    simp [applyBodyOp, RigidBody.setMass, massStaticInv]

theorem massStaticInv_applyBodyOps {b : RigidBody} (ops : List BodyOp)
    (hops : ∀ op ∈ ops, goodBodyOp op) (hb : massStaticInv b) :
    massStaticInv (applyBodyOps b ops) := by
  induction ops generalizing b with
  | nil => exact hb
  | cons op rest ih =>
    exact ih (fun o ho => hops o (List.mem_cons_of_mem _ ho))
      (massStaticInv_applyBodyOp op (hops op (List.mem_cons_self _ _)) hb)

/-- Claim C1 (counterexample): the claimed invariant
`inverseMass == 0 ⟺ isStatic` is violated by a legal operation sequence:
`new RigidBody(1)` followed by `makeKinematic()` yields `inverseMass == 0`
with `isStatic == false`.  (`new RigidBody(0)` violates it as well.) -/
theorem rigidBody_inverseMass_static_equiv_counterexample :
    ((RigidBody.create 1 Vector3D.zero).makeKinematic).inverseMass = 0 ∧
      ((RigidBody.create 1 Vector3D.zero).makeKinematic).isStatic = false ∧
      (RigidBody.create 0 Vector3D.zero).inverseMass = 0 ∧
      (RigidBody.create 0 Vector3D.zero).isStatic = false := by
  refine ⟨rfl, rfl, ?_, rfl⟩
  simp [RigidBody.create]

/-- Claim C1 (amended): after the constructor with positive mass, the
equivalence `inverseMass == 0 ⟺ isStatic` holds and is preserved by every
sequence of `makeStatic`, `makeDynamic` with positive mass, and `setMass(0)`
operations; it is not preserved by `makeKinematic`, nor established by the
constructor with non-positive mass (see the counterexample). -/
theorem rigidBody_inverseMass_static_equiv (m : ℚ) (p : Vector3D)
    (ops : List BodyOp) (hm : 0 < m) (hops : ∀ op ∈ ops, goodBodyOp op) :
    (applyBodyOps (RigidBody.create m p) ops).inverseMass = 0 ↔
      (applyBodyOps (RigidBody.create m p) ops).isStatic = true :=
  massStaticInv_applyBodyOps ops hops (massStaticInv_create_pos hm p)

/-- Claim C1 (witness): the amended theorem at mass 2 and the op sequence
`[makeStatic, makeDynamic 1, setMass 0]`. -/
theorem rigidBody_inverseMass_static_equiv_witness :
    (applyBodyOps (RigidBody.create 2 Vector3D.zero)
        [BodyOp.makeStaticOp, BodyOp.makeDynamicOp 1, BodyOp.setMassOp 0]).inverseMass = 0 ↔
      (applyBodyOps (RigidBody.create 2 Vector3D.zero)
        [BodyOp.makeStaticOp, BodyOp.makeDynamicOp 1, BodyOp.setMassOp 0]).isStatic = true :=
  rigidBody_inverseMass_static_equiv 2 Vector3D.zero
    [BodyOp.makeStaticOp, BodyOp.makeDynamicOp 1, BodyOp.setMassOp 0]
    (by norm_num) (by simp [goodBodyOp])

/-- Claim C9: dividing a `Vector3D` by the scalar zero is the one hard
failure (an invalid-operation error), while normalizing a zero-length
`Vector3D` returns the zero vector and normalizing a zero-magnitude
`QuaternionQ` returns the identity quaternion, without failing. -/
theorem divide_zero_error_normalize_total :
    (∀ v : Vector3D, v.divide 0 = Except.error "Cannot divide by zero") ∧
      (∀ v : Vector3D, v.magnitude = 0 → v.normalize = Vector3D.zero) ∧
      (∀ q : QuaternionQ, q.magnitude = 0 → q.normalize = QuaternionQ.identity) := by
  refine ⟨fun v => by simp [Vector3D.divide], fun v hv => ?_, fun q hq => ?_⟩
  · simp [Vector3D.normalize, hv, Vector3D.zero]
  · simp [QuaternionQ.normalize, hq, QuaternionQ.identity]

/-- Claim C9 (witness): the three parts at concrete zero inputs. -/
theorem divide_zero_error_normalize_total_witness :
    (Vector3D.mk 1 2 3).divide 0 = Except.error "Cannot divide by zero" ∧
      (Vector3D.mk 0 0 0).normalize = Vector3D.zero ∧
      (QuaternionQ.mk 0 0 0 0).normalize = QuaternionQ.identity :=
  ⟨divide_zero_error_normalize_total.1 (Vector3D.mk 1 2 3),
   divide_zero_error_normalize_total.2.1 (Vector3D.mk 0 0 0)
     (by norm_num [Vector3D.magnitude, sqrtQ, isqrt, isqrtAux]),
   divide_zero_error_normalize_total.2.2 (QuaternionQ.mk 0 0 0 0)
     (by norm_num [QuaternionQ.magnitude, sqrtQ, isqrt, isqrtAux])⟩

/-- `AABB` from `src/physics/Collision.ts` (the constructor clones its
arguments; clones of immutable values are the values themselves here). -/
structure AABB where
  min : Vector3D
  max : Vector3D
  deriving DecidableEq, Repr

/-- `AABB.intersects`. -/
def AABB.intersects (a b : AABB) : Bool :=
  decide (a.min.x ≤ b.max.x ∧ a.max.x ≥ b.min.x ∧
          a.min.y ≤ b.max.y ∧ a.max.y ≥ b.min.y ∧
          a.min.z ≤ b.max.z ∧ a.max.z ≥ b.min.z)

/-- `AABB.expand`. -/
def AABB.expand (a : AABB) (amount : ℚ) : AABB :=
  let expansion : Vector3D := ⟨amount, amount, amount⟩
  ⟨a.min.subtract expansion, a.max.add expansion⟩

/-- The shape data of a collider: `BoxCollider.size` or
`SphereCollider.radius`. -/
inductive ColliderShape where
  | box (size : Vector3D) : ColliderShape
  | sphere (radius : ℚ) : ColliderShape
  deriving DecidableEq, Repr

/-- A collider.  `cid` models the JavaScript object identity used by
`Array.includes`; `body` is the index of the owning `RigidBody` in the
store (the JavaScript `rigidbody` reference). -/
structure Collider where
  cid : Nat
  body : Nat
  shape : ColliderShape
  isTrigger : Bool
  deriving DecidableEq, Repr

/-- Dereference a body index in the store (JavaScript reference read). -/
def getBody (store : List RigidBody) (i : Nat) : RigidBody := store.getD i default

/-- The `Collision` contact record. -/
structure Collision where
  bodyA : Nat
  bodyB : Nat
  contactPoint : Vector3D
  contactNormal : Vector3D
  penetrationDepth : ℚ
  deriving DecidableEq, Repr

/-- `BoxCollider.getAABB` / `SphereCollider.getAABB`: world AABB from the
owning body's position and the shape extents. -/
def Collider.getAABB (store : List RigidBody) (c : Collider) : AABB :=
  let position := (getBody store c.body).position
  match c.shape with
  | ColliderShape.box size =>
    let halfSize := size.multiply (1 / 2)
    ⟨position.subtract halfSize, position.add halfSize⟩
  | ColliderShape.sphere radius =>
    let radiusVec : Vector3D := ⟨radius, radius, radius⟩
    ⟨position.subtract radiusVec, position.add radiusVec⟩

/-- `BoxCollider.checkBoxCollision`: AABB overlap, minimum-overlap axis as
the normal (x, y, z tie order), normal flipped toward body B, contact at
the midpoint of the two centers. -/
def checkBoxBoxCollision (store : List RigidBody) (aCol bCol : Collider) : Option Collision :=
  let aabb1 := aCol.getAABB store
  let aabb2 := bCol.getAABB store
  if !(aabb1.intersects aabb2) then none
  else
    let overlap : Vector3D :=
      ⟨min aabb1.max.x aabb2.max.x - max aabb1.min.x aabb2.min.x,
       min aabb1.max.y aabb2.max.y - max aabb1.min.y aabb2.min.y,
       min aabb1.max.z aabb2.max.z - max aabb1.min.z aabb2.min.z⟩
    let minOverlap := overlap.x
    let normal : Vector3D := ⟨1, 0, 0⟩
    let (minOverlap, normal) :=
      if overlap.y < minOverlap then (overlap.y, (⟨0, 1, 0⟩ : Vector3D))
      else (minOverlap, normal)
    let (minOverlap, normal) :=
      if overlap.z < minOverlap then (overlap.z, (⟨0, 0, 1⟩ : Vector3D))
      else (minOverlap, normal)
    let direction :=
      ((getBody store bCol.body).position).subtract ((getBody store aCol.body).position)
    let normal := if normal.dot direction < 0 then normal.multiply (-1) else normal
    let contactPoint :=
      (((getBody store aCol.body).position).add ((getBody store bCol.body).position)).multiply (1 / 2)
    some ⟨aCol.body, bCol.body, contactPoint, normal, minOverlap⟩

/-- The closest-point computation of `BoxCollider.checkSphereCollision`:
clamp a point into an AABB componentwise
(`Math.max(min, Math.min(p, max))`). -/
def clampPointToAABB (p : Vector3D) (aabb : AABB) : Vector3D :=
  ⟨max aabb.min.x (min p.x aabb.max.x),
   max aabb.min.y (min p.y aabb.max.y),
   max aabb.min.z (min p.z aabb.max.z)⟩

/-- `BoxCollider.checkSphereCollision`: clamp the sphere center into the box
AABB, no collision when the center-to-closest-point distance is strictly
greater than the radius, otherwise penetration `radius - distance`, contact
at the closest point, normal `normalize(center - closestPoint)`. -/
def checkBoxSphereCollision (store : List RigidBody) (boxCol : Collider)
    (sphereBody : Nat) (radius : ℚ) : Option Collision :=
  let aabb := boxCol.getAABB store
  let sphereCenter := (getBody store sphereBody).position
  let closestPoint := clampPointToAABB sphereCenter aabb
  let distance := sphereCenter.distanceTo closestPoint
  if radius < distance then none
  else
    let normal := (sphereCenter.subtract closestPoint).normalize
    let penetrationDepth := radius - distance
    some ⟨boxCol.body, sphereBody, closestPoint, normal, penetrationDepth⟩

/-- `SphereCollider.checkSphereCollision`: no collision when the center
distance is at least the radius sum. -/
def checkSphereSphereCollision (store : List RigidBody) (aBody : Nat) (rA : ℚ)
    (bBody : Nat) (rB : ℚ) : Option Collision :=
  let distance := ((getBody store aBody).position).distanceTo ((getBody store bBody).position)
  let totalRadius := rA + rB
  if totalRadius ≤ distance then none
  else
    let normal := (((getBody store bBody).position).subtract ((getBody store aBody).position)).normalize
    let penetrationDepth := totalRadius - distance
    let contactPoint :=
      ((getBody store aBody).position).add (normal.multiply (rA - penetrationDepth * (1 / 2)))
    some ⟨aBody, bBody, contactPoint, normal, penetrationDepth⟩

/-- The swap-and-flip block of `SphereCollider.checkCollision` for the
sphere-box case: bodies swapped, normal multiplied by `-1`, contact point
and penetration kept. -/
def flipCollision (c : Collision) : Collision :=
  ⟨c.bodyB, c.bodyA, c.contactPoint, c.contactNormal.multiply (-1), c.penetrationDepth⟩

/-- The `checkCollision` dispatch of `BoxCollider` and `SphereCollider`
over the 2x2 shape matrix. -/
def Collider.checkCollision (store : List RigidBody) (a b : Collider) : Option Collision :=
  match a.shape, b.shape with
  | ColliderShape.box _, ColliderShape.box _ => checkBoxBoxCollision store a b
  | ColliderShape.box _, ColliderShape.sphere radius =>
    checkBoxSphereCollision store a b.body radius
  | ColliderShape.sphere rA, ColliderShape.sphere rB =>
    checkSphereSphereCollision store a.body rA b.body rB
  | ColliderShape.sphere radius, ColliderShape.box _ =>
    (checkBoxSphereCollision store b a.body radius).map flipCollision

/-- Claim C4: `sphere.checkCollision(box)` returns a collision exactly when
`box.checkCollision(sphere)` does, and the two results report identical
penetration depth, the same pair of bodies with `bodyA`/`bodyB` swapped,
the same contact point, and contact normals equal in magnitude and opposite
in sign (the sphere-side normal is the box-side normal multiplied by -1). -/
theorem sphere_box_normal_order_symmetry (store : List RigidBody) (a b : Collider)
    (r : ℚ) (s : Vector3D) (ha : a.shape = ColliderShape.sphere r)
    (hb : b.shape = ColliderShape.box s) :
    ((Collider.checkCollision store a b).isSome =
       (Collider.checkCollision store b a).isSome) ∧
      (∀ cs cb : Collision, Collider.checkCollision store a b = some cs →
        Collider.checkCollision store b a = some cb →
        cs.penetrationDepth = cb.penetrationDepth ∧ cs.bodyA = cb.bodyB ∧
          cs.bodyB = cb.bodyA ∧ cs.contactPoint = cb.contactPoint ∧
          cs.contactNormal = cb.contactNormal.multiply (-1)) := by
  simp only [Collider.checkCollision, ha, hb]
  cases h : checkBoxSphereCollision store b a.body r with
  | none => simp
  | some c =>
    refine ⟨by simp, ?_⟩
    intro cs cb hcs hcb
    have hcs2 : flipCollision c = cs := by simpa using hcs
    have hcb2 : c = cb := by simpa using hcb
    subst hcs2; subst hcb2
    exact ⟨rfl, rfl, rfl, rfl, rfl⟩

/-- Claim C4 (witness): the symmetry theorem at a concrete
sphere-collider/box-collider pair. -/
theorem sphere_box_normal_order_symmetry_witness :
    (let store := [RigidBody.create 1 ⟨0, 0, 0⟩, RigidBody.create 1 ⟨1, 0, 0⟩]
     let sphereCol : Collider := ⟨0, 1, ColliderShape.sphere 1, false⟩
     let boxCol : Collider := ⟨1, 0, ColliderShape.box ⟨2, 2, 2⟩, false⟩
     ((Collider.checkCollision store sphereCol boxCol).isSome =
        (Collider.checkCollision store boxCol sphereCol).isSome) ∧
       (∀ cs cb : Collision, Collider.checkCollision store sphereCol boxCol = some cs →
         Collider.checkCollision store boxCol sphereCol = some cb →
         cs.penetrationDepth = cb.penetrationDepth ∧ cs.bodyA = cb.bodyB ∧
           cs.bodyB = cb.bodyA ∧ cs.contactPoint = cb.contactPoint ∧
           cs.contactNormal = cb.contactNormal.multiply (-1))) :=
  sphere_box_normal_order_symmetry
    [RigidBody.create 1 ⟨0, 0, 0⟩, RigidBody.create 1 ⟨1, 0, 0⟩]
    ⟨0, 1, ColliderShape.sphere 1, false⟩ ⟨1, 0, ColliderShape.box ⟨2, 2, 2⟩, false⟩
    1 ⟨2, 2, 2⟩ rfl rfl

/-- Claim C6 (counterexample): with the box AABB `[-1,1]^3` (size `(2,2,2)`,
body at the origin) and a sphere of radius 1 centered at `(2,0,0)`, the
center-to-closest-point distance equals the radius, yet
`checkSphereCollision` reports a collision (with penetration 0): the code
rejects only when the distance is strictly greater than the radius, not
greater-or-equal as claimed. -/
theorem box_sphere_boundary_counterexample :
    (checkBoxSphereCollision
        [RigidBody.create 1 ⟨0, 0, 0⟩, RigidBody.create 1 ⟨2, 0, 0⟩]
        ⟨0, 0, ColliderShape.box ⟨2, 2, 2⟩, false⟩ 1 1) =
      some ⟨0, 1, ⟨1, 0, 0⟩, ⟨1, 0, 0⟩, 0⟩ ∧
      ((getBody [RigidBody.create 1 ⟨0, 0, 0⟩, RigidBody.create 1 ⟨2, 0, 0⟩] 1).position.distanceTo
          (clampPointToAABB
            (getBody [RigidBody.create 1 ⟨0, 0, 0⟩, RigidBody.create 1 ⟨2, 0, 0⟩] 1).position
            (Collider.getAABB [RigidBody.create 1 ⟨0, 0, 0⟩, RigidBody.create 1 ⟨2, 0, 0⟩]
              ⟨0, 0, ColliderShape.box ⟨2, 2, 2⟩, false⟩))) = 1 := by
  constructor
  · norm_num [checkBoxSphereCollision, clampPointToAABB, Collider.getAABB, getBody,
      RigidBody.create, Vector3D.distanceTo, Vector3D.subtract, Vector3D.multiply,
      Vector3D.add, Vector3D.magnitude, Vector3D.normalize, Vector3D.divide, sqrtQ,
      isqrt, isqrtAux, min_def, max_def]
  · norm_num [clampPointToAABB, Collider.getAABB, getBody, RigidBody.create,
      Vector3D.distanceTo, Vector3D.subtract, Vector3D.multiply, Vector3D.add,
      Vector3D.magnitude, sqrtQ, isqrt, isqrtAux, min_def, max_def]

/-- Claim C6 (amended): for every Box-Sphere narrow-phase call, if the
distance from the sphere center to the closest point obtained by clamping
the center into the box's world AABB is strictly greater than the sphere
radius, no collision is reported; if the distance is less than or equal to
the radius (including exact equality, where the claimed `≥` cutoff fails),
a collision is reported with penetration `radius - distance`, contact point
the closest point, and normal `normalize(center - closestPoint)`. -/
theorem checkBoxSphereCollision_spec (store : List RigidBody) (boxCol : Collider)
    (sphereBody : Nat) (radius : ℚ) :
    (radius <
        ((getBody store sphereBody).position.distanceTo
          (clampPointToAABB (getBody store sphereBody).position (boxCol.getAABB store))) →
      checkBoxSphereCollision store boxCol sphereBody radius = none) ∧
      (((getBody store sphereBody).position.distanceTo
            (clampPointToAABB (getBody store sphereBody).position (boxCol.getAABB store))) ≤
          radius →
        checkBoxSphereCollision store boxCol sphereBody radius =
          some ⟨boxCol.body, sphereBody,
            clampPointToAABB (getBody store sphereBody).position (boxCol.getAABB store),
            ((getBody store sphereBody).position.subtract
                (clampPointToAABB (getBody store sphereBody).position
                  (boxCol.getAABB store))).normalize,
            radius -
              ((getBody store sphereBody).position.distanceTo
                (clampPointToAABB (getBody store sphereBody).position
                  (boxCol.getAABB store)))⟩) := by
  constructor
  · intro h
    simp only [checkBoxSphereCollision]
    rw [if_pos h]
  · intro h
    simp only [checkBoxSphereCollision]
    rw [if_neg (not_lt.mpr h)]

/-- Claim C6 (witness): the amended theorem at two concrete inputs, one
separated (sphere at `(5,0,0)`, distance 4 > radius 1, no collision) and
one overlapping (sphere of radius 2 at `(2,0,0)`, distance 1 ≤ 2,
penetration 1 at closest point `(1,0,0)`). -/
theorem checkBoxSphereCollision_spec_witness :
    checkBoxSphereCollision
        [RigidBody.create 1 ⟨0, 0, 0⟩, RigidBody.create 1 ⟨5, 0, 0⟩]
        ⟨0, 0, ColliderShape.box ⟨2, 2, 2⟩, false⟩ 1 1 = none ∧
      checkBoxSphereCollision
        [RigidBody.create 1 ⟨0, 0, 0⟩, RigidBody.create 1 ⟨2, 0, 0⟩]
        ⟨0, 0, ColliderShape.box ⟨2, 2, 2⟩, false⟩ 1 2 =
        some ⟨0, 1, ⟨1, 0, 0⟩, ⟨1, 0, 0⟩, 1⟩ := by
  constructor
  · exact (checkBoxSphereCollision_spec
      [RigidBody.create 1 ⟨0, 0, 0⟩, RigidBody.create 1 ⟨5, 0, 0⟩]
      ⟨0, 0, ColliderShape.box ⟨2, 2, 2⟩, false⟩ 1 1).1
      (by norm_num [clampPointToAABB, Collider.getAABB, getBody, RigidBody.create,
        Vector3D.distanceTo, Vector3D.subtract, Vector3D.multiply, Vector3D.add,
        Vector3D.magnitude, sqrtQ, isqrt, isqrtAux, min_def, max_def])
  · have h := (checkBoxSphereCollision_spec
      [RigidBody.create 1 ⟨0, 0, 0⟩, RigidBody.create 1 ⟨2, 0, 0⟩]
      ⟨0, 0, ColliderShape.box ⟨2, 2, 2⟩, false⟩ 1 2).2
      (by norm_num [clampPointToAABB, Collider.getAABB, getBody, RigidBody.create,
        Vector3D.distanceTo, Vector3D.subtract, Vector3D.multiply, Vector3D.add,
        Vector3D.magnitude, sqrtQ, isqrt, isqrtAux, min_def, max_def])
    rw [h]
    norm_num [clampPointToAABB, Collider.getAABB, getBody, RigidBody.create,
      Vector3D.distanceTo, Vector3D.subtract, Vector3D.multiply, Vector3D.add,
      Vector3D.magnitude, Vector3D.normalize, Vector3D.divide, sqrtQ, isqrt,
      isqrtAux, min_def, max_def]

/-- `PhysicsWorld` from `src/physics/PhysicsWorld.ts`.  `store` is the heap
of `RigidBody` objects; `rigidbodies` holds body references (store
indices); collider identity (`Array.includes` reference equality) is
modelled by the colliders' `cid` fields. -/
structure World where
  gravity : Vector3D
  store : List RigidBody
  rigidbodies : List Nat
  colliders : List Collider
  collisions : List Collision
  timeStep : ℚ
  maxSubSteps : Nat
  accumulator : ℚ
  collisionIterations : Nat
  maxObjectsPerFrame : ℚ
  deriving DecidableEq, Repr

/-- The `PhysicsWorld` constructor: gravity `(0, 9.81, 0)`, timestep 1/60,
5 max substeps, 8 collision iterations, 200 max objects.  The heap `store`
is empty. -/
def World.create : World where
  gravity := ⟨0, 981 / 100, 0⟩
  store := []
  rigidbodies := []
  colliders := []
  collisions := []
  timeStep := 1 / 60
  maxSubSteps := 5
  accumulator := 0
  collisionIterations := 8
  maxObjectsPerFrame := 200

/-- `PhysicsWorld.addRigidBody`: unique-membership insertion of a body
reference. -/
def World.addRigidBody (w : World) (body : Nat) : World :=
  if body ∈ w.rigidbodies then w
  else { w with rigidbodies := w.rigidbodies ++ [body] }

/-- `PhysicsWorld.addCollider`: no-op when the collider is already
registered; rejects (a warning-only no-op) when the registered collider
count has reached `maxObjectsPerFrame`; otherwise appends the collider and
registers its owning body. -/
def World.addCollider (w : World) (c : Collider) : World :=
  if w.colliders.any (fun c2 => c2.cid = c.cid) then w
  else if (w.colliders.length : ℚ) ≥ w.maxObjectsPerFrame then w
  else
    let w := { w with colliders := w.colliders ++ [c] }
    w.addRigidBody c.body

/-- `PhysicsWorld.setMaxObjects`: `maxObjectsPerFrame = Math.max(10, limit)`. -/
def World.setMaxObjects (w : World) (limit : ℚ) : World :=
  { w with maxObjectsPerFrame := max 10 limit }

/-- Claim C10: `setMaxObjects(limit)` sets the collider cap to
`max(10, limit)`; any limit below 10 yields a cap of exactly 10, so the cap
can never be configured below 10 through the public API. -/
theorem setMaxObjects_clamps (w : World) (limit : ℚ) :
    (w.setMaxObjects limit).maxObjectsPerFrame = max 10 limit ∧
      10 ≤ (w.setMaxObjects limit).maxObjectsPerFrame ∧
      (limit < 10 → (w.setMaxObjects limit).maxObjectsPerFrame = 10) := by
  refine ⟨rfl, le_max_left 10 limit, fun h => ?_⟩
  simp [World.setMaxObjects, max_eq_left (le_of_lt h)]

/-- Claim C10 (witness): `setMaxObjects 3` on a fresh world configures a
cap of exactly 10. -/
theorem setMaxObjects_clamps_witness :
    (World.create.setMaxObjects 3).maxObjectsPerFrame = max 10 3 ∧
      10 ≤ (World.create.setMaxObjects 3).maxObjectsPerFrame ∧
      ((3 : ℚ) < 10 → (World.create.setMaxObjects 3).maxObjectsPerFrame = 10) :=
  setMaxObjects_clamps World.create 3

/-- A collider with `cid` and owning-body index `i`, sphere radius 1. -/
def mkSphereCol (i : Nat) : Collider := ⟨i, i, ColliderShape.sphere 1, false⟩

/-- A world built through the public API: eleven colliders registered under
the default cap of 200, then `setMaxObjects(10)`, so the registered count
(11) exceeds the configured cap (10). -/
def capWorld : World :=
  let w := World.create
  let w := w.addCollider (mkSphereCol 0)
  let w := w.addCollider (mkSphereCol 1)
  let w := w.addCollider (mkSphereCol 2)
  let w := w.addCollider (mkSphereCol 3)
  let w := w.addCollider (mkSphereCol 4)
  let w := w.addCollider (mkSphereCol 5)
  let w := w.addCollider (mkSphereCol 6)
  let w := w.addCollider (mkSphereCol 7)
  let w := w.addCollider (mkSphereCol 8)
  let w := w.addCollider (mkSphereCol 9)
  let w := w.addCollider (mkSphereCol 10)
  w.setMaxObjects 10

theorem capWorld_eq :
    capWorld =
      { gravity := ⟨0, 981 / 100, 0⟩, store := [],
        rigidbodies := [0, 1, 2, 3, 4, 5, 6, 7, 8, 9, 10],
        colliders := [mkSphereCol 0, mkSphereCol 1, mkSphereCol 2, mkSphereCol 3,
          mkSphereCol 4, mkSphereCol 5, mkSphereCol 6, mkSphereCol 7, mkSphereCol 8,
          mkSphereCol 9, mkSphereCol 10],
        collisions := [], timeStep := 1 / 60, maxSubSteps := 5, accumulator := 0,
        collisionIterations := 8, maxObjectsPerFrame := 10 } := by
  norm_num [capWorld, World.create, World.addCollider, World.addRigidBody,
    World.setMaxObjects, mkSphereCol]

/-- Claim C5 (counterexample): after eleven colliders are registered under
the default cap and `setMaxObjects(10)` lowers the cap, a further
`addCollider` beyond the cap is rejected but leaves the registered count at
11, not at the cap (10). -/
theorem addCollider_cap_counterexample :
    capWorld.maxObjectsPerFrame = 10 ∧
      capWorld.addCollider (mkSphereCol 99) = capWorld ∧
      (capWorld.addCollider (mkSphereCol 99)).colliders.length = 11 ∧
      ((capWorld.addCollider (mkSphereCol 99)).colliders.length : ℚ) ≠
        (capWorld.addCollider (mkSphereCol 99)).maxObjectsPerFrame := by
  have hno : capWorld.addCollider (mkSphereCol 99) = capWorld := by
    rw [capWorld_eq]
    norm_num [World.addCollider, mkSphereCol]
  refine ⟨by rw [capWorld_eq], hno, ?_, ?_⟩
  · rw [hno, capWorld_eq]
    rfl
  · rw [hno, capWorld_eq]
    norm_num

/-- Claim C5 (amended): for a collider not already registered, `addCollider`
at or beyond the configured cap succeeds as a complete no-op (the world,
hence the registered count, the collider registry and the body registry,
is unchanged — so the count stays exactly at the cap whenever it was at
the cap, but stays above it if the cap was lowered below the count);
below the cap it appends the collider and ensures the owning body is
registered (unique membership). -/
theorem addCollider_cap_spec (w : World) (c : Collider)
    (hmem : w.colliders.any (fun c2 => c2.cid = c.cid) = false) :
    (w.maxObjectsPerFrame ≤ (w.colliders.length : ℚ) → w.addCollider c = w) ∧
      ((w.colliders.length : ℚ) < w.maxObjectsPerFrame →
        (w.addCollider c).colliders = w.colliders ++ [c] ∧
          (w.addCollider c).rigidbodies =
            (if c.body ∈ w.rigidbodies then w.rigidbodies
             else w.rigidbodies ++ [c.body])) := by
  constructor
  · intro hcap
    simp [World.addCollider, hmem, ge_iff_le, hcap]
  · intro hcap
    have hnot : ¬ w.maxObjectsPerFrame ≤ (w.colliders.length : ℚ) := not_le.mpr hcap
    constructor
    · simp [World.addCollider, hmem, ge_iff_le, hnot, World.addRigidBody]
      split <;> rfl
    · simp [World.addCollider, hmem, ge_iff_le, hnot, World.addRigidBody]
      split <;> rfl

/-- Claim C5 (witness): the amended theorem applied at the over-cap world
(`capWorld`, count 11 ≥ cap 10: rejection is a no-op) and at a fresh world
(below the cap: the collider and its body are registered). -/
theorem addCollider_cap_spec_witness :
    capWorld.addCollider (mkSphereCol 99) = capWorld ∧
      (World.create.addCollider (mkSphereCol 3)).colliders = [] ++ [mkSphereCol 3] ∧
      (World.create.addCollider (mkSphereCol 3)).rigidbodies =
        (if (mkSphereCol 3).body ∈ World.create.rigidbodies then World.create.rigidbodies
         else World.create.rigidbodies ++ [(mkSphereCol 3).body]) := by
  refine ⟨?_, ?_, ?_⟩
  · exact (addCollider_cap_spec capWorld (mkSphereCol 99)
      (by rw [capWorld_eq]; decide)).1
      (by rw [capWorld_eq]; norm_num)
  · exact ((addCollider_cap_spec World.create (mkSphereCol 3) (by decide)).2
      (by norm_num [World.create])).1
  · exact ((addCollider_cap_spec World.create (mkSphereCol 3) (by decide)).2
      (by norm_num [World.create])).2

/-- The `if (!body.isStatic) body.field = ...` mutation idiom of the
resolution code: re-read the body reference, skip the write when it is
static, otherwise write the updated body back. -/
def setUnlessStatic (store : List RigidBody) (j : Nat)
    (f : RigidBody → RigidBody) : List RigidBody :=
  let b := getBody store j
  if b.isStatic then store else store.set j (f b)

/-- `PhysicsWorld.separateObjects`: positional correction
`max(penetration - slop, 0) / totalInverseMass * separationPercent` along
the normal (slop 0.005, separationPercent 0.9); skipped entirely when the
total inverse mass is zero; static bodies never move. -/
def separateObjects (store : List RigidBody) (iA iB : Nat) (normal : Vector3D)
    (penetration : ℚ) : List RigidBody :=
  let bodyA := getBody store iA
  let bodyB := getBody store iB
  let totalInverseMass := bodyA.inverseMass + bodyB.inverseMass
  if totalInverseMass = 0 then store
  else
    let separationPercent : ℚ := 9 / 10
    let slop : ℚ := 1 / 200
    let correctionMagnitude := max (penetration - slop) 0 / totalInverseMass * separationPercent
    let correction := normal.multiply correctionMagnitude
    let store := setUnlessStatic store iA (fun bodyA =>
      { bodyA with position := bodyA.position.subtract (correction.multiply bodyA.inverseMass) })
    setUnlessStatic store iB (fun bodyB =>
      { bodyB with position := bodyB.position.add (correction.multiply bodyB.inverseMass) })

/-- `PhysicsWorld.applyFriction`: tangential impulse computed from the
passed (pre-impulse) relative velocity, clamped by the Coulomb bound
`|normalImpulse| * sqrt(frictionA * frictionB)`; skipped when the tangential
speed is below `1e-6`; static bodies keep their velocities.

The friction scalar divides by `inverseMassA + inverseMassB` with no zero
guard, exactly as the source does.  On a zero denominator (a contact whose
participants are all static or kinematic) the source's floating point
yields ±Infinity/NaN there and the velocity writes below store NaN — a
value no rational holds; rational division returns the junk value 0 on
that denominator instead.  The model is therefore faithful only to
executions whose impulse denominators are non-zero; theorems about the
impulse path carry that restriction as a hypothesis. -/
def applyFriction (store : List RigidBody) (iA iB : Nat)
    (normal relativeVelocity : Vector3D) (normalImpulse : ℚ) : List RigidBody :=
  let tangent := relativeVelocity.subtract (normal.multiply (relativeVelocity.dot normal))
  if tangent.magnitude < 1 / 1000000 then store
  else
    let tangentDirection := tangent.normalize
    let bodyA := getBody store iA
    let bodyB := getBody store iB
    let friction := sqrtQ (bodyA.friction * bodyB.friction)
    let frictionImpulse0 :=
      (-(relativeVelocity.dot tangentDirection)) / (bodyA.inverseMass + bodyB.inverseMass)
    let maxFriction := |normalImpulse| * friction
    let frictionImpulse := max (-maxFriction) (min frictionImpulse0 maxFriction)
    let frictionVector := tangentDirection.multiply frictionImpulse
    let store := setUnlessStatic store iA (fun bodyA =>
      { bodyA with velocity := bodyA.velocity.subtract (frictionVector.multiply bodyA.inverseMass) })
    setUnlessStatic store iB (fun bodyB =>
      { bodyB with velocity := bodyB.velocity.add (frictionVector.multiply bodyB.inverseMass) })

/-- `PhysicsWorld.resolveCollision`: returns the mutated store and whether
the collision was resolved (`false` when both bodies are static, the
penetration is at most the micro-threshold 0.001, or the bodies are
separating with strictly positive velocity along the normal).

The impulse scalar `j` divides by `inverseMassA + inverseMassB` with no
zero guard, exactly as the source does.  That denominator is zero for a
reachable static-vs-kinematic (or kinematic-vs-kinematic) contact: when
such a contact gets past the separating check, the source computes
`j = -0/0 = NaN` and the impulse and friction writes store NaN in every
non-static participant's velocity — values no rational holds.  Rational
division returns the junk value 0 on that denominator instead, so this
model is faithful only to executions that either exit before the impulse
scalar or have a non-zero inverse-mass sum; theorems about the impulse
path carry that restriction as a hypothesis. -/
def resolveCollision (store : List RigidBody) (collision : Collision) :
    List RigidBody × Bool :=
  let bodyA := getBody store collision.bodyA
  let bodyB := getBody store collision.bodyB
  if bodyA.isStatic && bodyB.isStatic then (store, false)
  else if collision.penetrationDepth ≤ 1 / 1000 then (store, false)
  else
    let store := separateObjects store collision.bodyA collision.bodyB
      collision.contactNormal collision.penetrationDepth
    let bodyA := getBody store collision.bodyA
    let bodyB := getBody store collision.bodyB
    let relativeVelocity := bodyB.velocity.subtract bodyA.velocity
    let velocityAlongNormal := relativeVelocity.dot collision.contactNormal
    if 0 < velocityAlongNormal then (store, false)
    else
      let restitution := min bodyA.restitution bodyB.restitution
      let j := (-(1 + restitution) * velocityAlongNormal) /
        (bodyA.inverseMass + bodyB.inverseMass)
      let impulse := collision.contactNormal.multiply j
      let store := setUnlessStatic store collision.bodyA (fun bodyA =>
        { bodyA with velocity := bodyA.velocity.subtract (impulse.multiply bodyA.inverseMass) })
      let store := setUnlessStatic store collision.bodyB (fun bodyB =>
        { bodyB with velocity := bodyB.velocity.add (impulse.multiply bodyB.inverseMass) })
      let store := applyFriction store collision.bodyA collision.bodyB
        collision.contactNormal relativeVelocity j
      (store, true)

/-- The unordered-pair enumeration of `detectCollisions` (`i < j` double
loop, in order). -/
def allPairs {α : Type} : List α → List (α × α)
  | [] => []
  | x :: xs => xs.map (fun y => (x, y)) ++ allPairs xs

/-- `PhysicsWorld.detectCollisions`: skip pairs of static bodies; broad
phase on AABBs expanded by 0.01; keep narrow-phase results with penetration
strictly above 0.001. -/
def detectCollisionsList (w : World) : List Collision :=
  (allPairs w.colliders).filterMap (fun p =>
    let colliderA := p.1
    let colliderB := p.2
    if (getBody w.store colliderA.body).isStatic &&
        (getBody w.store colliderB.body).isStatic then none
    else
      let aabbA := (colliderA.getAABB w.store).expand (1 / 100)
      let aabbB := (colliderB.getAABB w.store).expand (1 / 100)
      if !(aabbA.intersects aabbB) then none
      else
        match Collider.checkCollision w.store colliderA colliderB with
        | none => none
        | some collision =>
          if 1 / 1000 < collision.penetrationDepth then some collision else none)

/-- The world-level `detectCollisions`: fully replaces the collision list. -/
def World.detectCollisions (w : World) : World :=
  { w with collisions := detectCollisionsList w }

/-- One pass of `resolveCollisions` over the current collision list,
returning the mutated store and whether any collision was resolved. -/
def resolvePass (store : List RigidBody) : List Collision → List RigidBody × Bool
  | [] => (store, false)
  | c :: cs =>
    let r1 := resolveCollision store c
    let r2 := resolvePass r1.1 cs
    (r2.1, r1.2 || r2.2)

/-- The iteration loop of `PhysicsWorld.resolveCollisions`: up to
`collisionIterations` passes, early exit when a pass resolves nothing,
re-detection between passes except after the last. -/
def resolveCollisionsLoop (w : World) : Nat → World
  | 0 => w
  | r + 1 =>
    let pass := resolvePass w.store w.collisions
    let w2 := { w with store := pass.1 }
    if !pass.2 then w2
    else if 0 < r then resolveCollisionsLoop w2.detectCollisions r
    else w2

/-- `PhysicsWorld.resolveCollisions`. -/
def World.resolveCollisions (w : World) : World :=
  resolveCollisionsLoop w w.collisionIterations

/-- `PhysicsWorld.applyGravity` over the registered bodies:
`addForce(gravity * mass)` for every body with `useGravity`, not static,
not kinematic. -/
def applyGravityStore (gravity : Vector3D) (ids : List Nat)
    (store : List RigidBody) : List RigidBody :=
  ids.foldl (fun store i =>
    let rigidbody := getBody store i
    if rigidbody.useGravity && !rigidbody.isStatic && !rigidbody.isKinematic then
      store.set i (rigidbody.addForce (gravity.multiply rigidbody.mass))
    else store) store

/-- The world-level `applyGravity`. -/
def World.applyGravity (w : World) : World :=
  { w with store := applyGravityStore w.gravity w.rigidbodies w.store }

/-- The integration loop of `fixedUpdate`: integrate every registered body. -/
def integrateStore (deltaTime : ℚ) (ids : List Nat)
    (store : List RigidBody) : List RigidBody :=
  ids.foldl (fun store i => store.set i ((getBody store i).integrate deltaTime)) store

/-- The world-level integration pass. -/
def World.integrateAll (w : World) (deltaTime : ℚ) : World :=
  { w with store := integrateStore deltaTime w.rigidbodies w.store }

/-- `PhysicsWorld.fixedUpdate`: gravity, integration, detection,
resolution, in that order. -/
def World.fixedUpdate (w : World) (deltaTime : ℚ) : World :=
  (((w.applyGravity).integrateAll deltaTime).detectCollisions).resolveCollisions

/-- The `while` loop of `PhysicsWorld.step`: run a fixed sub-update and
subtract one timestep while the accumulator holds at least one timestep,
at most `fuel` more times (`fuel` counts the remaining allowed substeps). -/
def stepLoop (w : World) : Nat → World
  | 0 => w
  | fuel + 1 =>
    if w.timeStep ≤ w.accumulator then
      let w2 := w.fixedUpdate w.timeStep
      stepLoop { w2 with accumulator := w2.accumulator - w2.timeStep } fuel
    else w

/-- `PhysicsWorld.step(deltaTime)`: add the delta to the accumulator, then
drain it in fixed substeps capped at `maxSubSteps`. -/
def World.step (w : World) (deltaTime : ℚ) : World :=
  stepLoop { w with accumulator := w.accumulator + deltaTime } w.maxSubSteps

/-- `n` iterations of the `step` loop body (one fixed sub-update of
duration `timeStep` followed by the accumulator decrement); used to state
exactly how many sub-updates `step` runs. -/
def stepN (w : World) : Nat → World
  | 0 => w
  | n + 1 =>
    let w2 := w.fixedUpdate w.timeStep
    stepN { w2 with accumulator := w2.accumulator - w2.timeStep } n

theorem getBody_set_ne (store : List RigidBody) {i j : Nat} (h : j ≠ i)
    (x : RigidBody) : getBody (store.set j x) i = getBody store i := by
  simp [getBody, List.getD_eq_getElem?_getD, List.getElem?_set_ne h]

theorem getBody_set_self (store : List RigidBody) (i : Nat) (x : RigidBody)
    (h : i < store.length) : getBody (store.set i x) i = x := by
  simp [getBody, List.getD_eq_getElem?_getD, List.getElem?_set_self', h]

theorem list_set_getBody (store : List RigidBody) (i : Nat) :
    store.set i (getBody store i) = store := by
  induction store generalizing i with
  | nil => rfl
  | cons a t ih =>
    cases i with
    | zero => rfl
    | succ n => simpa [getBody, List.set, List.getD] using congrArg (List.cons a) (ih n)

theorem getBody_setUnlessStatic_static (store : List RigidBody) (j : Nat)
    (f : RigidBody → RigidBody) (i : Nat) (hi : (getBody store i).isStatic = true) :
    getBody (setUnlessStatic store j f) i = getBody store i := by
  unfold setUnlessStatic
  by_cases hj : (getBody store j).isStatic
  · simp [hj]
  · simp only [hj, if_neg, Bool.false_eq_true, if_false]
    rcases eq_or_ne j i with rfl | hne
    · exact absurd hi hj
    · exact getBody_set_ne store hne _

theorem getBody_setUnlessStatic2_static (store : List RigidBody) (jA jB : Nat)
    (f g : RigidBody → RigidBody) (i : Nat)
    (hi : (getBody store i).isStatic = true) :
    getBody (setUnlessStatic (setUnlessStatic store jA f) jB g) i = getBody store i := by
  have h1 := getBody_setUnlessStatic_static store jA f i hi
  rw [getBody_setUnlessStatic_static _ jB g i (by rw [h1]; exact hi), h1]

theorem separateObjects_static (store : List RigidBody) (iA iB : Nat)
    (normal : Vector3D) (penetration : ℚ) (i : Nat)
    (hi : (getBody store i).isStatic = true) :
    getBody (separateObjects store iA iB normal penetration) i = getBody store i := by
  simp only [separateObjects]
  split
  · rfl
  · exact getBody_setUnlessStatic2_static store iA iB _ _ i hi

theorem applyFriction_static (store : List RigidBody) (iA iB : Nat)
    (normal relativeVelocity : Vector3D) (normalImpulse : ℚ) (i : Nat)
    (hi : (getBody store i).isStatic = true) :
    getBody (applyFriction store iA iB normal relativeVelocity normalImpulse) i =
      getBody store i := by
  simp only [applyFriction]
  split
  · rfl
  · exact getBody_setUnlessStatic2_static store iA iB _ _ i hi

theorem resolveCollision_static (store : List RigidBody) (collision : Collision)
    (i : Nat) (hi : (getBody store i).isStatic = true) :
    getBody (resolveCollision store collision).1 i = getBody store i := by
  have e1 : getBody (separateObjects store collision.bodyA collision.bodyB
      collision.contactNormal collision.penetrationDepth) i = getBody store i :=
    separateObjects_static store _ _ _ _ i hi
  simp only [resolveCollision]
  split
  · rfl
  · split
    · rfl
    · split
      · exact e1
      · exact (applyFriction_static _ _ _ _ _ _ i
            (by rw [getBody_setUnlessStatic2_static _ _ _ _ _ i (by rw [e1]; exact hi), e1]
                exact hi)).trans
          ((getBody_setUnlessStatic2_static _ _ _ _ _ i (by rw [e1]; exact hi)).trans e1)

theorem getBody_set (store : List RigidBody) (j : Nat) (x : RigidBody) (i : Nat) :
    getBody (store.set j x) i =
      if j = i ∧ j < store.length then x else getBody store i := by
  induction store generalizing i j with
  | nil => simp [getBody]
  | cons a t ih =>
    cases j with
    | zero =>
      cases i with
      | zero => simp [getBody]
      | succ n => simp [getBody]
    | succ m =>
      cases i with
      | zero => simp [getBody]
      | succ n =>
        simpa [getBody, List.getD_cons_succ, Nat.succ_lt_succ_iff] using ih m n

theorem getBody_setUnlessStatic_velocity (store : List RigidBody) (j : Nat)
    (f : RigidBody → RigidBody) (i : Nat)
    (hf : ∀ b, (f b).velocity = b.velocity) :
    (getBody (setUnlessStatic store j f) i).velocity = (getBody store i).velocity := by
  simp only [setUnlessStatic]
  split
  · rfl
  · rw [getBody_set]
    split
    · rename_i h
      rw [hf, h.1]
    · rfl

theorem separateObjects_velocity (store : List RigidBody) (iA iB : Nat)
    (normal : Vector3D) (penetration : ℚ) (i : Nat) :
    (getBody (separateObjects store iA iB normal penetration) i).velocity =
      (getBody store i).velocity := by
  simp only [separateObjects]
  split
  · rfl
  · rw [getBody_setUnlessStatic_velocity, getBody_setUnlessStatic_velocity]
    · intro b; rfl
    · intro b; rfl

theorem setUnlessStatic_id (store : List RigidBody) (j : Nat)
    (f : RigidBody → RigidBody) (hf : ∀ b, f b = b) : setUnlessStatic store j f = store := by
  simp only [setUnlessStatic]
  split
  · rfl
  · rw [hf, list_set_getBody]

theorem subtract_mul_zero_vec (v n : Vector3D) (s : ℚ) :
    v.subtract ((n.multiply 0).multiply s) = v := by
  cases v; cases n
  simp [Vector3D.multiply, Vector3D.subtract]

theorem add_mul_zero_vec (v n : Vector3D) (s : ℚ) :
    v.add ((n.multiply 0).multiply s) = v := by
  cases v; cases n
  simp [Vector3D.multiply, Vector3D.add]

theorem applyFriction_zero (store : List RigidBody) (iA iB : Nat)
    (normal relativeVelocity : Vector3D) :
    applyFriction store iA iB normal relativeVelocity 0 = store := by
  simp only [applyFriction, abs_zero, zero_mul, neg_zero]
  split
  · rfl
  · have hclamp :
        max 0 (min ((-(relativeVelocity.dot
            ((relativeVelocity.subtract
              (normal.multiply (relativeVelocity.dot normal))).normalize))) /
          ((getBody store iA).inverseMass + (getBody store iB).inverseMass)) 0) = 0 :=
      max_eq_left (min_le_right _ _)
    rw [hclamp]
    rw [setUnlessStatic_id _ _ _ (fun b => ?_), setUnlessStatic_id _ _ _ (fun b => ?_)]
    · cases b
      simp [Vector3D.multiply, Vector3D.subtract, Vector3D.add]
    · cases b
      simp [Vector3D.multiply, Vector3D.subtract, Vector3D.add]

/-- Claim C2 (amended): on a collision with penetration above the
micro-threshold, not both bodies static, whose relative velocity `(B - A)`
has a non-negative component along the contact normal — and whose
inverse-mass sum is non-zero whenever that component is exactly zero, so
that the source's impulse arithmetic stays finite — `resolveCollision`
changes no velocity: the store is exactly the positional-correction result
of `separateObjects`, and it reports no impulse (`false`) exactly when the
component is strictly positive.  At component exactly zero the code
continues past the separating check, applies a zero impulse and zero
friction, and reports `true` to the pass-level early-exit check.  The
finiteness hypothesis `_hfin` marks the model boundary: with a zero
inverse-mass sum at component zero (a static body against a kinematic
one), the source divides by zero and writes NaN into every non-static
participant's velocity — a further divergence from the original claim that
rational arithmetic cannot express (the spec's documented NaN gap); with a
strictly positive component the source returns before any division, so no
hypothesis is needed there. -/
theorem resolveCollision_separating (store : List RigidBody) (collision : Collision)
    (hs : ¬((getBody store collision.bodyA).isStatic = true ∧
      (getBody store collision.bodyB).isStatic = true))
    (hp : 1 / 1000 < collision.penetrationDepth)
    (hv : 0 ≤ ((getBody store collision.bodyB).velocity.subtract
      (getBody store collision.bodyA).velocity).dot collision.contactNormal)
    (_hfin : ((getBody store collision.bodyB).velocity.subtract
        (getBody store collision.bodyA).velocity).dot collision.contactNormal = 0 →
      (getBody store collision.bodyA).inverseMass +
        (getBody store collision.bodyB).inverseMass ≠ 0) :
    (resolveCollision store collision).1 =
        separateObjects store collision.bodyA collision.bodyB
          collision.contactNormal collision.penetrationDepth ∧
      (∀ i, (getBody (resolveCollision store collision).1 i).velocity =
        (getBody store i).velocity) ∧
      ((resolveCollision store collision).2 = true ↔
        ((getBody store collision.bodyB).velocity.subtract
          (getBody store collision.bodyA).velocity).dot collision.contactNormal = 0) := by
  have hss : ((getBody store collision.bodyA).isStatic &&
      (getBody store collision.bodyB).isStatic) = false := by
    rw [Bool.eq_false_iff]
    intro hcon
    exact hs (Bool.and_eq_true_iff.mp hcon)
  have hvb : ∀ k, (getBody (separateObjects store collision.bodyA collision.bodyB
      collision.contactNormal collision.penetrationDepth) k).velocity =
      (getBody store k).velocity :=
    fun k => separateObjects_velocity store _ _ _ _ k
  simp only [resolveCollision]
  rw [if_neg (by simp [hss]), if_neg (not_le.mpr hp)]
  simp only [hvb]
  rcases lt_or_eq_of_le hv with hpos | hzero
  · rw [if_pos hpos]
    refine ⟨rfl, fun i => hvb i, ?_⟩
    simp only [Bool.false_eq_true, false_iff]
    exact fun h => lt_irrefl (0 : ℚ) (h ▸ hpos)
  · rw [if_neg (by rw [← hzero]; exact lt_irrefl 0)]
    simp only [← hzero, mul_zero, zero_div]
    rw [applyFriction_zero, setUnlessStatic_id, setUnlessStatic_id]
    · exact ⟨rfl, fun i => hvb i, by simp [hzero]⟩
    · intro b
      cases b
      simp [Vector3D.multiply, Vector3D.subtract]
    · intro b
      cases b
      simp [Vector3D.multiply, Vector3D.add]

/-- Claim C2 (counterexample): two dynamic unit-mass bodies with equal
(zero) velocities and an overlapping contact (penetration 1 along
`(1,0,0)`): the relative velocity along the normal is 0 (non-negative), yet
`resolveCollision` reports `true` — it does not report that no impulse was
applied, because the code skips only on strictly positive separating
velocity. -/
theorem resolveCollision_counterexample :
    ((resolveCollision [RigidBody.create 1 ⟨0, 0, 0⟩, RigidBody.create 1 ⟨1, 0, 0⟩]
        ⟨0, 1, ⟨0, 0, 0⟩, ⟨1, 0, 0⟩, 1⟩).2 = true) ∧
      ((getBody [RigidBody.create 1 ⟨0, 0, 0⟩, RigidBody.create 1 ⟨1, 0, 0⟩] 1).velocity.subtract
          (getBody [RigidBody.create 1 ⟨0, 0, 0⟩, RigidBody.create 1 ⟨1, 0, 0⟩] 0).velocity).dot
        (⟨1, 0, 0⟩ : Vector3D) = 0 := by
  constructor
  · norm_num [resolveCollision, separateObjects, setUnlessStatic, applyFriction, getBody,
      RigidBody.create, Vector3D.zero, Vector3D.subtract, Vector3D.add, Vector3D.multiply,
      Vector3D.dot, Vector3D.magnitude, sqrtQ, isqrt, isqrtAux, min_def, max_def, abs_of_nonneg]
  · norm_num [getBody, RigidBody.create, Vector3D.zero, Vector3D.subtract, Vector3D.dot]

/-- Claim C2 (witness): the amended theorem at a concrete separating
contact (body B moving away along the normal, relative normal velocity 1). -/
theorem resolveCollision_separating_witness :
    (resolveCollision
          [RigidBody.create 1 ⟨0, 0, 0⟩,
           { RigidBody.create 1 ⟨1, 0, 0⟩ with velocity := ⟨1, 0, 0⟩ }]
          ⟨0, 1, ⟨0, 0, 0⟩, ⟨1, 0, 0⟩, 1⟩).1 =
        separateObjects
          [RigidBody.create 1 ⟨0, 0, 0⟩,
           { RigidBody.create 1 ⟨1, 0, 0⟩ with velocity := ⟨1, 0, 0⟩ }] 0 1 ⟨1, 0, 0⟩ 1 ∧
      (∀ i, (getBody (resolveCollision
          [RigidBody.create 1 ⟨0, 0, 0⟩,
           { RigidBody.create 1 ⟨1, 0, 0⟩ with velocity := ⟨1, 0, 0⟩ }]
          ⟨0, 1, ⟨0, 0, 0⟩, ⟨1, 0, 0⟩, 1⟩).1 i).velocity =
        (getBody
          [RigidBody.create 1 ⟨0, 0, 0⟩,
           { RigidBody.create 1 ⟨1, 0, 0⟩ with velocity := ⟨1, 0, 0⟩ }] i).velocity) ∧
      ((resolveCollision
          [RigidBody.create 1 ⟨0, 0, 0⟩,
           { RigidBody.create 1 ⟨1, 0, 0⟩ with velocity := ⟨1, 0, 0⟩ }]
          ⟨0, 1, ⟨0, 0, 0⟩, ⟨1, 0, 0⟩, 1⟩).2 = true ↔
        ((getBody
            [RigidBody.create 1 ⟨0, 0, 0⟩,
             { RigidBody.create 1 ⟨1, 0, 0⟩ with velocity := ⟨1, 0, 0⟩ }] 1).velocity.subtract
          (getBody
            [RigidBody.create 1 ⟨0, 0, 0⟩,
             { RigidBody.create 1 ⟨1, 0, 0⟩ with velocity := ⟨1, 0, 0⟩ }] 0).velocity).dot
          (⟨1, 0, 0⟩ : Vector3D) = 0) :=
  resolveCollision_separating
    [RigidBody.create 1 ⟨0, 0, 0⟩,
     { RigidBody.create 1 ⟨1, 0, 0⟩ with velocity := ⟨1, 0, 0⟩ }]
    ⟨0, 1, ⟨0, 0, 0⟩, ⟨1, 0, 0⟩, 1⟩
    (by norm_num [getBody, RigidBody.create])
    (by norm_num)
    (by norm_num [getBody, RigidBody.create, Vector3D.zero, Vector3D.subtract, Vector3D.dot])
    (fun _ => by norm_num [getBody, RigidBody.create])

/-- `PhysicsWorld.setGravity` (the argument is cloned; clones of immutable
values are the values themselves here). -/
def World.setGravity (w : World) (gravity : Vector3D) : World :=
  { w with gravity := gravity }

theorem resolveCollisionsLoop_nil (w : World) (h : w.collisions = []) :
    ∀ fuel, resolveCollisionsLoop w fuel = w
  | 0 => rfl
  | fuel + 1 => by
    have hpass : resolvePass w.store w.collisions = (w.store, false) := by
      rw [h]; rfl
    simp only [resolveCollisionsLoop, hpass, Bool.not_false, if_true]

/-- The world of the spec's integration-order test: one dynamic body of
mass 1 at the origin, `useGravity` on, gravity `(0, 10, 0)`, no collider. -/
def gravityTestWorld : World :=
  ({ World.create with store := [RigidBody.create 1 Vector3D.zero] }.setGravity
    ⟨0, 10, 0⟩).addRigidBody 0

/-- Claim C7: in a world with gravity `(0,10,0)` and no collider, a dynamic
body of mass 1 with `useGravity` and zero initial velocity has, after one
fixed sub-update of duration `dt`, `velocity.y = 10*dt` and
`position.y = 10*dt^2` — position integrates from the newly updated
velocity (semi-implicit Euler ordering). -/
theorem semi_implicit_euler_gravity (dt : ℚ) :
    (getBody (gravityTestWorld.fixedUpdate dt).store 0).velocity.y = 10 * dt ∧
      (getBody (gravityTestWorld.fixedUpdate dt).store 0).position.y = 10 * dt * dt := by
  have hdetect : ∀ w : World, w.colliders = [] → detectCollisionsList w = [] := by
    intro w hw
    simp [detectCollisionsList, hw, allPairs]
  have hw : gravityTestWorld.fixedUpdate dt =
      ((((gravityTestWorld.applyGravity).integrateAll dt).detectCollisions)) := by
    rw [World.fixedUpdate, World.resolveCollisions]
    apply resolveCollisionsLoop_nil
    exact hdetect _ rfl
  rw [hw]
  simp only [World.detectCollisions, World.integrateAll, World.applyGravity,
    gravityTestWorld, World.addRigidBody, World.setGravity, World.create]
  norm_num [applyGravityStore, integrateStore, getBody, RigidBody.create,
    RigidBody.addForce, RigidBody.integrate, Vector3D.zero, Vector3D.add,
    Vector3D.subtract, Vector3D.multiply, Vector3D.magnitude, sqrtQ, isqrt, isqrtAux]

theorem resolveCollisionsLoop_timeStep :
    ∀ (fuel : Nat) (w : World), (resolveCollisionsLoop w fuel).timeStep = w.timeStep
  | 0, _ => rfl
  | fuel + 1, w => by
    simp only [resolveCollisionsLoop]
    split
    · rfl
    · split
      · rw [resolveCollisionsLoop_timeStep fuel]
        rfl
      · rfl

theorem resolveCollisionsLoop_accumulator :
    ∀ (fuel : Nat) (w : World), (resolveCollisionsLoop w fuel).accumulator = w.accumulator
  | 0, _ => rfl
  | fuel + 1, w => by
    simp only [resolveCollisionsLoop]
    split
    · rfl
    · split
      · rw [resolveCollisionsLoop_accumulator fuel]
        rfl
      · rfl

theorem fixedUpdate_timeStep (w : World) (dt : ℚ) :
    (w.fixedUpdate dt).timeStep = w.timeStep := by
  rw [World.fixedUpdate, World.resolveCollisions, resolveCollisionsLoop_timeStep]
  rfl

theorem fixedUpdate_accumulator (w : World) (dt : ℚ) :
    (w.fixedUpdate dt).accumulator = w.accumulator := by
  rw [World.fixedUpdate, World.resolveCollisions, resolveCollisionsLoop_accumulator]
  rfl

theorem stepN_accumulator :
    ∀ (n : Nat) (w : World),
      (stepN w n).accumulator = w.accumulator - n * w.timeStep
  | 0, w => by simp [stepN]
  | n + 1, w => by
    rw [stepN, stepN_accumulator n]
    simp only [fixedUpdate_accumulator, fixedUpdate_timeStep]
    push_cast
    ring

theorem stepN_timeStep :
    ∀ (n : Nat) (w : World), (stepN w n).timeStep = w.timeStep
  | 0, _ => rfl
  | n + 1, w => by
    rw [stepN, stepN_timeStep n]
    simp only [fixedUpdate_timeStep]

theorem stepLoop_count :
    ∀ (fuel : Nat) (w : World), 0 < w.timeStep → 0 ≤ w.accumulator →
      stepLoop w fuel = stepN w (min (Int.toNat ⌊w.accumulator / w.timeStep⌋) fuel)
  | 0, w, _, _ => by simp [stepLoop, stepN]
  | fuel + 1, w, hts, hacc => by
    by_cases hc : w.timeStep ≤ w.accumulator
    · have hge1 : (1 : ℤ) ≤ ⌊w.accumulator / w.timeStep⌋ := by
        rw [Int.le_floor]
        push_cast
        rw [le_div_iff₀ hts]
        linarith
      have hfl : ⌊(w.accumulator - w.timeStep) / w.timeStep⌋ =
          ⌊w.accumulator / w.timeStep⌋ - 1 := by
        rw [sub_div, div_self (ne_of_gt hts)]
        have h := Int.floor_sub_int (w.accumulator / w.timeStep) 1
        simp only [Int.cast_one] at h
        exact h
      have hmin : min (Int.toNat ⌊w.accumulator / w.timeStep⌋) (fuel + 1) =
          min (Int.toNat ⌊(w.accumulator - w.timeStep) / w.timeStep⌋) fuel + 1 := by
        rw [hfl]
        omega
      have hW : 0 ≤ ((w.fixedUpdate w.timeStep).accumulator -
          (w.fixedUpdate w.timeStep).timeStep) := by
        rw [fixedUpdate_accumulator, fixedUpdate_timeStep]
        linarith
      have ih := stepLoop_count fuel
        { w.fixedUpdate w.timeStep with
          accumulator := (w.fixedUpdate w.timeStep).accumulator -
            (w.fixedUpdate w.timeStep).timeStep }
        (by simpa [fixedUpdate_timeStep] using hts) hW
      simp only [stepLoop, if_pos hc]
      rw [ih, hmin, stepN]
      simp only [fixedUpdate_accumulator, fixedUpdate_timeStep]
    · have h0 : ⌊w.accumulator / w.timeStep⌋ = 0 := by
        rw [Int.floor_eq_zero_iff]
        constructor
        · exact div_nonneg hacc (le_of_lt hts)
        · rw [div_lt_one hts]
          exact not_le.mp hc
      simp only [stepLoop, if_neg hc, h0, Int.toNat_zero, Nat.zero_min, stepN]

/-- Claim C8: `step(dt)` with accumulator `acc`, positive timestep and
non-negative `acc` and `dt`, runs exactly
`n = min(floor((acc + dt) / timeStep), maxSubSteps)` fixed sub-updates of
duration `timeStep` (it equals `n` iterations of the loop body on the world
with the delta added), and the accumulator afterwards equals
`acc + dt - n * timeStep`, so time beyond the substep cap is carried to the
next call rather than dropped. -/
theorem step_substep_count (w : World) (dt : ℚ) (hts : 0 < w.timeStep)
    (hacc : 0 ≤ w.accumulator) (hdt : 0 ≤ dt) :
    w.step dt =
        stepN { w with accumulator := w.accumulator + dt }
          (min (Int.toNat ⌊(w.accumulator + dt) / w.timeStep⌋) w.maxSubSteps) ∧
      (w.step dt).accumulator =
        w.accumulator + dt -
          (min (Int.toNat ⌊(w.accumulator + dt) / w.timeStep⌋) w.maxSubSteps : ℕ) *
            w.timeStep := by
  have h1 : w.step dt =
      stepN { w with accumulator := w.accumulator + dt }
        (min (Int.toNat ⌊(w.accumulator + dt) / w.timeStep⌋) w.maxSubSteps) := by
    rw [World.step]
    have h := stepLoop_count w.maxSubSteps { w with accumulator := w.accumulator + dt }
      hts (add_nonneg hacc hdt)
    exact h
  refine ⟨h1, ?_⟩
  rw [h1, stepN_accumulator]

/-- Claim C8 (witness): a fresh world (timestep 1/60, accumulator 0,
maxSubSteps 5) stepped by 1/30: the substep count is
`min(floor((0 + 1/30) / (1/60)), 5) = 2`. -/
theorem step_substep_count_witness :
    World.create.step (1 / 30) =
        stepN { World.create with accumulator := World.create.accumulator + 1 / 30 }
          (min (Int.toNat ⌊(World.create.accumulator + 1 / 30) / World.create.timeStep⌋)
            World.create.maxSubSteps) ∧
      (World.create.step (1 / 30)).accumulator =
        World.create.accumulator + 1 / 30 -
          (min (Int.toNat ⌊(World.create.accumulator + 1 / 30) / World.create.timeStep⌋)
            World.create.maxSubSteps : ℕ) * World.create.timeStep :=
  step_substep_count World.create (1 / 30) (by norm_num [World.create])
    (by norm_num [World.create]) (by norm_num)

theorem integrate_static (b : RigidBody) (dt : ℚ) (h : b.isStatic = true) :
    b.integrate dt = b := by
  simp [RigidBody.integrate, h]

theorem applyGravityStore_static (gravity : Vector3D) :
    ∀ (ids : List Nat) (store : List RigidBody) (i : Nat),
      (getBody store i).isStatic = true →
      getBody (applyGravityStore gravity ids store) i = getBody store i
  | [], _, _, _ => rfl
  | j :: rest, store, i, hi => by
    simp only [applyGravityStore, List.foldl_cons]
    by_cases hcond : ((getBody store j).useGravity && !(getBody store j).isStatic &&
        !(getBody store j).isKinematic) = true
    · have hne : j ≠ i := by
        intro hji
        subst hji
        simp [hi] at hcond
      have hstep : getBody (store.set j ((getBody store j).addForce
          (gravity.multiply (getBody store j).mass))) i = getBody store i :=
        getBody_set_ne store hne _
      have := applyGravityStore_static gravity rest
        (store.set j ((getBody store j).addForce (gravity.multiply (getBody store j).mass)))
        i (by rw [hstep]; exact hi)
      simp only [applyGravityStore] at this
      simp only [hcond, if_true]
      rw [this, hstep]
    · have := applyGravityStore_static gravity rest store i hi
      simp only [applyGravityStore] at this
      simp only [hcond, Bool.false_eq_true, if_false]
      exact this

theorem integrateStore_static (dt : ℚ) :
    ∀ (ids : List Nat) (store : List RigidBody) (i : Nat),
      (getBody store i).isStatic = true →
      getBody (integrateStore dt ids store) i = getBody store i
  | [], _, _, _ => rfl
  | j :: rest, store, i, hi => by
    simp only [integrateStore, List.foldl_cons]
    have hstep : getBody (store.set j ((getBody store j).integrate dt)) i =
        getBody store i := by
      rcases eq_or_ne j i with rfl | hne
      · rw [integrate_static _ _ hi, list_set_getBody]
      · exact getBody_set_ne store hne _
    have := integrateStore_static dt rest
      (store.set j ((getBody store j).integrate dt)) i (by rw [hstep]; exact hi)
    simp only [integrateStore] at this
    rw [this, hstep]

theorem resolvePass_static :
    ∀ (cols : List Collision) (store : List RigidBody) (i : Nat),
      (getBody store i).isStatic = true →
      getBody (resolvePass store cols).1 i = getBody store i
  | [], _, _, _ => rfl
  | c :: rest, store, i, hi => by
    simp only [resolvePass]
    have h1 := resolveCollision_static store c i hi
    have h2 := resolvePass_static rest (resolveCollision store c).1 i
      (by rw [h1]; exact hi)
    rw [h2, h1]

theorem resolveCollisionsLoop_static :
    ∀ (fuel : Nat) (w : World) (i : Nat),
      (getBody w.store i).isStatic = true →
      getBody (resolveCollisionsLoop w fuel).store i = getBody w.store i
  | 0, _, _, _ => rfl
  | fuel + 1, w, i, hi => by
    simp only [resolveCollisionsLoop]
    have h1 := resolvePass_static w.collisions w.store i hi
    split
    · exact h1
    · split
      · have h2 := resolveCollisionsLoop_static fuel
          ({ w with store := (resolvePass w.store w.collisions).1 }.detectCollisions) i
          (by simpa [World.detectCollisions, h1] using hi)
        simpa [World.detectCollisions, h1] using h2
      · exact h1

theorem fixedUpdate_static (w : World) (dt : ℚ) (i : Nat)
    (hi : (getBody w.store i).isStatic = true) :
    getBody (w.fixedUpdate dt).store i = getBody w.store i := by
  rw [World.fixedUpdate, World.resolveCollisions]
  have hg := applyGravityStore_static w.gravity w.rigidbodies w.store i hi
  have hgi : (getBody (w.applyGravity).store i).isStatic = true := by
    simpa [World.applyGravity, hg] using hi
  have hint := integrateStore_static dt (w.applyGravity).rigidbodies (w.applyGravity).store i hgi
  have hii : (getBody ((w.applyGravity).integrateAll dt).store i).isStatic = true := by
    simpa [World.integrateAll, hint] using hgi
  have hloop := resolveCollisionsLoop_static
    (((w.applyGravity).integrateAll dt).detectCollisions).collisionIterations
    (((w.applyGravity).integrateAll dt).detectCollisions) i
    (by simpa [World.detectCollisions] using hii)
  rw [hloop]
  simp only [World.detectCollisions, World.integrateAll, World.applyGravity]
  simp only [World.applyGravity] at hint
  rw [hint, hg]

theorem stepLoop_static :
    ∀ (fuel : Nat) (w : World) (i : Nat),
      (getBody w.store i).isStatic = true →
      getBody (stepLoop w fuel).store i = getBody w.store i
  | 0, _, _, _ => rfl
  | fuel + 1, w, i, hi => by
    simp only [stepLoop]
    split
    · have h1 := fixedUpdate_static w w.timeStep i hi
      have h2 := stepLoop_static fuel
        { w.fixedUpdate w.timeStep with
          accumulator := (w.fixedUpdate w.timeStep).accumulator -
            (w.fixedUpdate w.timeStep).timeStep } i (by simpa [h1] using hi)
      simpa [h1] using h2
    · rfl

/-- Claim C3: a static body registered in a world keeps its position and
velocity across any `step(dt)` — quantified over every world state, so in
particular regardless of collisions resolved during the step — and the
force-application entry points (`addForce`, `addForceAtPoint`, `addTorque`)
are no-ops on it, so forces applied before the step cannot affect it
either. -/
theorem static_body_step_invariant (w : World) (dt : ℚ) (i : Nat)
    (_hreg : i ∈ w.rigidbodies) (hstatic : (getBody w.store i).isStatic = true) :
    (getBody (w.step dt).store i).position = (getBody w.store i).position ∧
      (getBody (w.step dt).store i).velocity = (getBody w.store i).velocity ∧
      (∀ f, (getBody w.store i).addForce f = getBody w.store i) ∧
      (∀ f p, (getBody w.store i).addForceAtPoint f p = getBody w.store i) ∧
      (∀ t, (getBody w.store i).addTorque t = getBody w.store i) := by
  have hfull : getBody (w.step dt).store i = getBody w.store i := by
    rw [World.step]
    exact stepLoop_static w.maxSubSteps _ i hstatic
  exact ⟨by rw [hfull], by rw [hfull],
    fun f => by simp [RigidBody.addForce, hstatic],
    fun f p => by simp [RigidBody.addForceAtPoint, hstatic],
    fun t => by simp [RigidBody.addTorque, hstatic]⟩

/-- Claim C3 (witness): a world holding one registered static body, stepped
by 1/30 (two substeps at the default 1/60 timestep). -/
theorem static_body_step_invariant_witness :
    (getBody (({ World.create with
          store := [(RigidBody.create 1 ⟨2, 3, 4⟩).makeStatic],
          rigidbodies := [0] } : World).step (1 / 30)).store 0).position =
        (getBody ({ World.create with
          store := [(RigidBody.create 1 ⟨2, 3, 4⟩).makeStatic],
          rigidbodies := [0] } : World).store 0).position ∧
      (getBody (({ World.create with
          store := [(RigidBody.create 1 ⟨2, 3, 4⟩).makeStatic],
          rigidbodies := [0] } : World).step (1 / 30)).store 0).velocity =
        (getBody ({ World.create with
          store := [(RigidBody.create 1 ⟨2, 3, 4⟩).makeStatic],
          rigidbodies := [0] } : World).store 0).velocity ∧
      (∀ f, (getBody ({ World.create with
          store := [(RigidBody.create 1 ⟨2, 3, 4⟩).makeStatic],
          rigidbodies := [0] } : World).store 0).addForce f =
        getBody ({ World.create with
          store := [(RigidBody.create 1 ⟨2, 3, 4⟩).makeStatic],
          rigidbodies := [0] } : World).store 0) ∧
      (∀ f p, (getBody ({ World.create with
          store := [(RigidBody.create 1 ⟨2, 3, 4⟩).makeStatic],
          rigidbodies := [0] } : World).store 0).addForceAtPoint f p =
        getBody ({ World.create with
          store := [(RigidBody.create 1 ⟨2, 3, 4⟩).makeStatic],
          rigidbodies := [0] } : World).store 0) ∧
      (∀ t, (getBody ({ World.create with
          store := [(RigidBody.create 1 ⟨2, 3, 4⟩).makeStatic],
          rigidbodies := [0] } : World).store 0).addTorque t =
        getBody ({ World.create with
          store := [(RigidBody.create 1 ⟨2, 3, 4⟩).makeStatic],
          rigidbodies := [0] } : World).store 0) :=
  static_body_step_invariant
    { World.create with
      store := [(RigidBody.create 1 ⟨2, 3, 4⟩).makeStatic], rigidbodies := [0] }
    (1 / 30) 0 (by simp) rfl
